import Mathlib

/-!
# Email delivery probe engine: a verification development

Shallow embedding of the probe engine in src/email_delivery_monitor.py
(class EmailDeliveryMonitor).  Clock readings and latencies are modelled as
rationals (seconds since the epoch); the provider-assigned receive timestamp
is a natural number of epoch milliseconds, as the inbox API delivers it.
Fallible steps return Option; the mutable token cache is modelled by
explicit state passing.
-/

namespace EmailMonitor

/-- Python truthiness of an optional rational: None and 0.0 are falsy,
every other value is truthy. -/
def pyTruthyQ : Option ℚ → Bool
  | none => false
  | some q => q != 0

/-- Python truthiness of an optional string: None and the empty string are
falsy, every other string is truthy. -/
def pyTruthyStr : Option String → Bool
  | none => false
  | some s => s != ""

/-- ASCII lowercasing, modelling the Python str.lower calls applied to the
(ASCII) header names and values handled by the monitor. -/
def strLower (s : String) : String := ⟨s.data.map Char.toLower⟩

/-- A candidate message fetched from the receiving inbox: the raw header
name/value pairs returned by the metadata fetch, and the provider-assigned
receive timestamp internalDate in epoch milliseconds. -/
structure CandidateMessage where
  headers : List (String × String)
  internalDate : Nat
  deriving DecidableEq

/-- Lookup in the header dictionary that check_for_email builds with
a dict comprehension keyed by lowercased header name: a later occurrence of
the same (lowercased) name overwrites an earlier one. -/
def dictGet (hs : List (String × String)) (k : String) : Option String :=
  hs.foldl (fun acc h => if strLower h.1 == k then some h.2 else acc) none

/-- Header lookup on a candidate message, lowercased-name dictionary
semantics as in the source. -/
def headerLookup (c : CandidateMessage) (k : String) : Option String :=
  dictGet c.headers k

/-- The correlator decision inside check_for_email: a candidate is skipped
unless the is-probe header X-EmailMonitor equals "true" after lowercasing
its value, and the X-EmailTestId header equals the expected test_id
exactly (a missing header never equals the expected id). -/
def matchCandidate (test_id : String) (c : CandidateMessage) : Bool :=
  strLower ((headerLookup c "x-emailmonitor").getD "") == "true"
    && headerLookup c "x-emailtestid" == some test_id

/-- Value of a natural number written as a list of decimal digit
characters. -/
def natOfDigits (cs : List Char) : Nat :=
  cs.foldl (fun n c => 10 * n + (c.toNat - 48)) 0

/-- Parser modelling the Python float() conversion applied to the
X-EmailSendEpoch header value, on the plain decimal strings that header
carries (the sender writes str(send_epoch) of an int): optional sign,
integer digits, optional fractional digits.  Returns none when the string
does not parse; the source then treats the marker as unusable. -/
def parseDecimal (s : String) : Option ℚ :=
  let sgn : Bool × List Char :=
    match s.data with
    | '-' :: r => (true, r)
    | '+' :: r => (false, r)
    | r => (false, r)
  let intPart := sgn.2.takeWhile Char.isDigit
  let rest := sgn.2.dropWhile Char.isDigit
  let mkres : ℚ → Option ℚ := fun v => some (if sgn.1 then -v else v)
  match rest with
  | [] => if intPart.isEmpty then none else mkres (natOfDigits intPart : ℚ)
  | '.' :: fracPart =>
    if fracPart.all Char.isDigit && !(intPart.isEmpty && fracPart.isEmpty) then
      mkres ((natOfDigits intPart : ℚ) +
        (natOfDigits fracPart : ℚ) / ((10 : ℚ) ^ fracPart.length))
    else none
  | _ => none

/-- The send epoch recovered from the X-EmailSendEpoch header of a
candidate: an absent or empty header is skipped, an unparsable value is
treated as None, exactly as the try/except in the source does. -/
def headerSendEpoch (c : CandidateMessage) : Option ℚ :=
  match headerLookup c "x-emailsendepoch" with
  | none => none
  | some s => if s == "" then none else parseDecimal s

/-- base_send = header_send_epoch or self.last_send_epoch: Python or keeps
the header epoch when it is truthy and otherwise falls back to the last
send epoch recorded by send_test_email. -/
def baseSend (lastSendEpoch : Option ℚ) (c : CandidateMessage) : Option ℚ :=
  if pyTruthyQ (headerSendEpoch c) then headerSendEpoch c else lastSendEpoch

/-- Delivery-time computation for a candidate that passed the marker
checks: when a truthy base send epoch is available the latency is
max 0 (internalDate / 1000 - base_send); otherwise the detection-based
fallback now - start_time is used, unclamped. -/
def computeDeliveryTime (lastSendEpoch : Option ℚ) (now start : ℚ)
    (c : CandidateMessage) : ℚ :=
  let internal_date : ℚ := (c.internalDate : ℚ) / 1000
  if pyTruthyQ (baseSend lastSendEpoch c) then
    max 0 (internal_date - (baseSend lastSendEpoch c).getD 0)
  else
    now - start

/-- One iteration of the check_for_email poll loop, as observed from
outside: now is the clock reading taken by the while condition, fetch is
either a recoverable Gmail API error or the fetched page of candidates,
and nowAtMatch is the clock reading the fallback latency path would use
inside this iteration. -/
structure PollIteration where
  now : ℚ
  fetch : Except Unit (List CandidateMessage)
  nowAtMatch : ℚ

/-- First candidate of a fetched page that passes the correlator checks;
the source returns on the first such candidate. -/
def findMatch (test_id : String) (msgs : List CandidateMessage) :
    Option CandidateMessage :=
  msgs.find? (matchCandidate test_id)

/-- Default max_wait_time of check_for_email, from the Python signature. -/
def checkForEmailDefaultWait : Nat := 300

/-- The check_for_email poll loop over a finite trace of iterations:
returns the delivery time of the first matching candidate, or none on
timeout, together with the list of sleeps performed (the source sleeps a
constant 5 seconds after a recoverable API error and after a matchless
page).  Every deadline test compares against the start and max_wait fixed
at call time; nothing restarts or extends them. -/
def checkForEmailLoop (test_id : String) (lastSendEpoch : Option ℚ)
    (start maxWait : ℚ) : List PollIteration → Option ℚ × List ℚ
  | [] => (none, [])
  | it :: rest =>
    if it.now - start < maxWait then
      match it.fetch with
      | .error _ =>
        let r := checkForEmailLoop test_id lastSendEpoch start maxWait rest
        (r.1, 5 :: r.2)
      | .ok msgs =>
        match findMatch test_id msgs with
        | some c =>
          (some (computeDeliveryTime lastSendEpoch it.nowAtMatch start c), [])
        | none =>
          let r := checkForEmailLoop test_id lastSendEpoch start maxWait rest
          (r.1, 5 :: r.2)
    else (none, [])

/-- Mutable state of the credential cache: the cached bearer token (None
before the first fetch) and its expiry in epoch seconds (initialised
to 0). -/
structure TokenState where
  access_token : Option String
  token_expires_at : ℚ
  deriving DecidableEq

/-- Outcome of one MSAL acquire_token_for_client call, as read by
_get_office365_token: the access_token when the response carries one, and
the optional expires_in seconds. -/
structure AcquireResult where
  access_token : Option String
  expires_in : Option ℤ
  deriving DecidableEq

/-- Result of one _get_office365_token call: the returned token (None on
failure), the updated cache state, and whether a fresh acquire call was
performed (exposed so refreshes can be counted). -/
structure TokenOutcome where
  token : Option String
  state : TokenState
  fetched : Bool
  deriving DecidableEq

/-- _get_office365_token: reuse the cached token when not forcing, the
cached token is truthy and now is more than 300 seconds before its expiry;
otherwise perform a fresh acquire, and on success store the token with
token_expires_at = int(now) + expires_in, where expires_in defaults
to 3600 when the response omits it.  On acquire failure return None and
leave the state unchanged. -/
def getOffice365Token (st : TokenState) (force : Bool) (now : ℚ)
    (acq : AcquireResult) : TokenOutcome :=
  if !force && pyTruthyStr st.access_token
      && decide (now < st.token_expires_at - 300) then
    { token := st.access_token, state := st, fetched := false }
  else
    match acq.access_token with
    | some tok =>
      { token := some tok
        state :=
          { access_token := some tok
            token_expires_at := (⌊now⌋ : ℚ) + (acq.expires_in.getD 3600 : ℤ) }
        fetched := true }
    | none => { token := none, state := st, fetched := true }

/-- Environment of one send_test_email call: the token returned by the
initial non-forced cache lookup, the HTTP status of the first sendMail
POST, the token returned by the forced refresh (consulted only after a
401), and the HTTP status of the retried POST. -/
structure SendEnv where
  token1 : Option String
  status1 : Nat
  token2 : Option String
  status2 : Nat
  deriving DecidableEq

/-- Observable outcome of send_test_email: the returned boolean together
with the number of sendMail POSTs performed and the number of forced
token refreshes. -/
structure SendOutcome where
  ok : Bool
  sendAttempts : Nat
  forcedRefreshes : Nat
  deriving DecidableEq

/-- send_test_email: fail without sending when the initial token lookup
fails; send once; 202 succeeds; on 401 force exactly one token refresh
and, only when it yields a token, retry the send exactly once; any other
status, a failed refresh, or a non-202 retry returns False for the
cycle. -/
def sendTestEmail (env : SendEnv) : SendOutcome :=
  if !pyTruthyStr env.token1 then ⟨false, 0, 0⟩
  else if env.status1 == 202 then ⟨true, 1, 0⟩
  else if env.status1 == 401 then
    if !pyTruthyStr env.token2 then ⟨false, 1, 1⟩
    else if env.status2 == 202 then ⟨true, 2, 1⟩
    else ⟨false, 2, 1⟩
  else ⟨false, 1, 0⟩

/-- send_to_zabbix: the (host, key, value) measurements pushed for one
cycle.  A disabled sink pushes nothing; a delivery time that is not None
pushes the time and success=1; a None delivery time pushes success=0 and
the -1 failure sentinel. -/
def sendToZabbixMetrics (enabled : Bool) (host : String)
    (delivery_time : Option ℚ) : List (String × String × ℚ) :=
  if !enabled then []
  else
    match delivery_time with
    | some t =>
      [(host, "email.delivery.time", t), (host, "email.delivery.success", 1)]
    | none =>
      [(host, "email.delivery.success", 0), (host, "email.delivery.time", -1)]

/-- run_test: one probe cycle.  A failed send reports the failure metrics
at once; otherwise the poll loop result (a delivery time, or None on
timeout) is reported.  The function is total: every cycle ends in a
report. -/
def runTest (enabled : Bool) (host : String) (env : SendEnv)
    (test_id : String) (lastSendEpoch : Option ℚ) (start maxWait : ℚ)
    (trace : List PollIteration) : List (String × String × ℚ) :=
  if !(sendTestEmail env).ok then
    sendToZabbixMetrics enabled host none
  else
    sendToZabbixMetrics enabled host
      (checkForEmailLoop test_id lastSendEpoch start maxWait trace).1

/-! ## Helper lemmas -/

/-- Unfolding of the delivery time when a truthy base send epoch is
available. -/
theorem computeDeliveryTime_of_base (lastSendEpoch : Option ℚ)
    (now start : ℚ) (c : CandidateMessage) (b : ℚ)
    (hb : baseSend lastSendEpoch c = some b) (hb0 : b ≠ 0) :
    computeDeliveryTime lastSendEpoch now start c =
      max 0 ((c.internalDate : ℚ) / 1000 - b) := by
  have ht : pyTruthyQ (some b) = true := by simpa [pyTruthyQ] using hb0
  simp only [computeDeliveryTime, hb, ht, if_true, Option.getD_some]

/-- Unfolding of the delivery time on the detection-based fallback path. -/
theorem computeDeliveryTime_fallback (lastSendEpoch : Option ℚ)
    (now start : ℚ) (c : CandidateMessage)
    (h : pyTruthyQ (baseSend lastSendEpoch c) = false) :
    computeDeliveryTime lastSendEpoch now start c = now - start := by
  simp only [computeDeliveryTime, h, Bool.false_eq_true, if_false]

/-- Appending a header whose lowercased name differs from the key leaves
the dictionary lookup unchanged. -/
theorem dictGet_append_skip (hs : List (String × String)) (n v k : String)
    (hk : strLower n ≠ k) : dictGet (hs ++ [(n, v)]) k = dictGet hs k := by
  have hne : (strLower n == k) = false := beq_eq_false_iff_ne.mpr hk
  simp only [dictGet, List.foldl_append, List.foldl_cons, List.foldl_nil, hne,
    Bool.false_eq_true, if_false]

/-- Cache-hit unfolding of _get_office365_token. -/
theorem getOffice365Token_cached (st : TokenState) (now : ℚ)
    (acq : AcquireResult) (h1 : pyTruthyStr st.access_token = true)
    (h2 : now < st.token_expires_at - 300) :
    getOffice365Token st false now acq =
      { token := st.access_token, state := st, fetched := false } := by
  have hc : (!false && pyTruthyStr st.access_token
      && decide (now < st.token_expires_at - 300)) = true := by
    simp [h1, h2]
  simp only [getOffice365Token, hc, if_true]

/-- Refresh unfolding of _get_office365_token when the cached-token test
fails (or force is set) and the acquire call succeeds. -/
theorem getOffice365Token_fresh (st : TokenState) (force : Bool) (now : ℚ)
    (acq : AcquireResult) (tok : String)
    (hc : (!force && pyTruthyStr st.access_token
      && decide (now < st.token_expires_at - 300)) = false)
    (ha : acq.access_token = some tok) :
    getOffice365Token st force now acq =
      { token := some tok
        state :=
          { access_token := some tok
            token_expires_at := (⌊now⌋ : ℚ) + (acq.expires_in.getD 3600 : ℤ) }
        fetched := true } := by
  simp only [getOffice365Token, hc, Bool.false_eq_true, if_false, ha]

/-! ## Claims -/

/-- C2: the correlator returns NoMatch whenever the is-probe marker
X-EmailMonitor is missing or not equal to true, or the X-EmailTestId
marker differs from the expected test_id, regardless of every other
header (in particular the subject); a positive match holds exactly when
the is-probe marker equals true and the test_id marker equals the
expected test_id. -/
theorem C2_match_requires_markers (test_id : String) (c : CandidateMessage) :
    (matchCandidate test_id c = true ↔
      strLower ((headerLookup c "x-emailmonitor").getD "") = "true" ∧
        headerLookup c "x-emailtestid" = some test_id) ∧
    (∀ c' : CandidateMessage,
      headerLookup c' "x-emailmonitor" = headerLookup c "x-emailmonitor" →
      headerLookup c' "x-emailtestid" = headerLookup c "x-emailtestid" →
      matchCandidate test_id c' = matchCandidate test_id c) := by
  constructor
  · simp [matchCandidate]
  · intro c' h1 h2
    simp only [matchCandidate, h1, h2]

/-- Witness for C2: a candidate whose subject embeds the expected test id
but which carries no markers is rejected exactly like an unrelated
candidate with equal marker lookups. -/
theorem C2_match_requires_markers_witness :
    matchCandidate "t1" ⟨[("Subject", "Email Delivery Test - t1")], 0⟩ =
      matchCandidate "t1" ⟨[("Subject", "unrelated")], 5⟩ :=
  (C2_match_requires_markers "t1" ⟨[("Subject", "unrelated")], 5⟩).2
    ⟨[("Subject", "Email Delivery Test - t1")], 0⟩ (by decide) (by decide)

/-- C1 counterexample: a matched candidate with no send-epoch marker while
a last send epoch (1000) is recorded, receive time 1042.5, poll started at
100 and the clock now reads 107.  The claim says the computation falls
back to now minus poll start (7) whenever the marker is absent; the code
instead uses the recorded last send epoch and yields 42.5. -/
theorem C1_counterexample :
    computeDeliveryTime (some 1000) 107 100
        ⟨[("X-EmailMonitor", "true"), ("X-EmailTestId", "t1")], 1042500⟩ =
      85 / 2 ∧
    (107 : ℚ) - 100 = 7 ∧ (85 / 2 : ℚ) ≠ 7 := by
  refine ⟨?_, by norm_num, by norm_num⟩
  rw [computeDeliveryTime_of_base (some 1000) 107 100 _ 1000 (by decide)
    (by norm_num)]
  norm_num [max_def]

/-- C1 (amended): latency precedence of check_for_email.  A parsable
nonzero send-epoch marker is used as max 0 (receive - marker), and with
send epoch 1000 and receive time 1042.5 the result is exactly 42.5
(= 85/2).  When the marker is absent, unparsable or zero, the code first
falls back to the recorded last send epoch (clamped the same way), and
only when that is also unavailable does it use now minus the local poll
start time. -/
theorem C1_latency_precedence (lastSendEpoch : Option ℚ) (now start : ℚ)
    (c : CandidateMessage) :
    (∀ e : ℚ, headerSendEpoch c = some e → e ≠ 0 →
      computeDeliveryTime lastSendEpoch now start c =
        max 0 ((c.internalDate : ℚ) / 1000 - e)) ∧
    (pyTruthyQ (headerSendEpoch c) = false →
      ∀ l : ℚ, lastSendEpoch = some l → l ≠ 0 →
      computeDeliveryTime lastSendEpoch now start c =
        max 0 ((c.internalDate : ℚ) / 1000 - l)) ∧
    (pyTruthyQ (headerSendEpoch c) = false → pyTruthyQ lastSendEpoch = false →
      computeDeliveryTime lastSendEpoch now start c = now - start) ∧
    computeDeliveryTime none 0 0
      ⟨[("X-EmailMonitor", "true"), ("X-EmailTestId", "t1"),
        ("X-EmailSendEpoch", "1000")], 1042500⟩ = 85 / 2 := by
  refine ⟨?_, ?_, ?_, ?_⟩
  · intro e he he0
    refine computeDeliveryTime_of_base _ _ _ _ e ?_ he0
    simp only [baseSend, he]
    simp [pyTruthyQ, he0]
  · intro hf l hl hl0
    refine computeDeliveryTime_of_base _ _ _ _ l ?_ hl0
    simp only [baseSend, hf, Bool.false_eq_true, if_false, hl]
  · intro hf hl
    refine computeDeliveryTime_fallback _ _ _ _ ?_
    simp only [baseSend, hf, Bool.false_eq_true, if_false]
    exact hl
  · rw [computeDeliveryTime_of_base none 0 0 _ 1000 (by decide) (by norm_num)]
    norm_num [max_def]

/-- Witness for C1 (amended): a candidate with marker epoch 1000 takes the
marker path even though a different last send epoch (999) is recorded. -/
theorem C1_latency_precedence_witness :
    computeDeliveryTime (some 999) 3 1
        ⟨[("X-EmailMonitor", "true"), ("X-EmailTestId", "t1"),
          ("X-EmailSendEpoch", "1000")], 1042500⟩ =
      max 0 ((1042500 : ℚ) / 1000 - 1000) := by
  exact (C1_latency_precedence (some 999) 3 1
    ⟨[("X-EmailMonitor", "true"), ("X-EmailTestId", "t1"),
      ("X-EmailSendEpoch", "1000")], 1042500⟩).1 1000 (by decide) (by norm_num)

/-- C5: the latency of a matched candidate is never negative on either
computation path (for the fallback path, given that the clock reading is
not earlier than the poll start it subtracts), and whenever the receive
time does not exceed the truthy base send epoch the clamp makes the
result exactly 0. -/
theorem C5_latency_nonnegative (lastSendEpoch : Option ℚ) (now start : ℚ)
    (c : CandidateMessage) :
    (start ≤ now → 0 ≤ computeDeliveryTime lastSendEpoch now start c) ∧
    (∀ b : ℚ, baseSend lastSendEpoch c = some b → b ≠ 0 →
      (c.internalDate : ℚ) / 1000 ≤ b →
      computeDeliveryTime lastSendEpoch now start c = 0) := by
  constructor
  · intro hsn
    cases ht : pyTruthyQ (baseSend lastSendEpoch c) with
    | true =>
      simp only [computeDeliveryTime, ht, if_true]
      exact le_max_left _ _
    | false =>
      rw [computeDeliveryTime_fallback _ _ _ _ ht]
      linarith
  · intro b hb hb0 hle
    rw [computeDeliveryTime_of_base _ _ _ _ b hb hb0]
    exact max_eq_left (by linarith)

/-- Witness for C5: receive time 1500 s precedes the marker epoch 2000, so
the clamp yields exactly 0. -/
theorem C5_latency_nonnegative_witness :
    computeDeliveryTime none 0 0
        ⟨[("X-EmailMonitor", "true"), ("X-EmailTestId", "t1"),
          ("X-EmailSendEpoch", "2000")], 1500000⟩ = 0 :=
  (C5_latency_nonnegative none 0 0 _).2 2000 (by decide) (by norm_num)
    (by norm_num)

/-- C6: with the sink enabled exactly two measurements are pushed per
cycle: on failure (delivery time None) the success flag 0 and the -1
sentinel, on success the measured delivery time and the success flag 1;
a disabled sink pushes nothing. -/
theorem C6_metrics_shape (host : String) (dt : Option ℚ) :
    (sendToZabbixMetrics true host dt).length = 2 ∧
    (dt = none → sendToZabbixMetrics true host dt =
      [(host, "email.delivery.success", 0),
        (host, "email.delivery.time", -1)]) ∧
    (∀ t : ℚ, dt = some t → sendToZabbixMetrics true host dt =
      [(host, "email.delivery.time", t),
        (host, "email.delivery.success", 1)]) ∧
    sendToZabbixMetrics false host dt = [] := by
  rcases dt with _ | t <;> simp [sendToZabbixMetrics]

/-- Witness for C6: a failed cycle pushes success=0 and the -1 sentinel. -/
theorem C6_metrics_shape_witness :
    sendToZabbixMetrics true "mailhost" none =
      [("mailhost", "email.delivery.success", 0),
        ("mailhost", "email.delivery.time", -1)] :=
  (C6_metrics_shape "mailhost" none).2.1 rfl

/-- C10: a computed delivery time of exactly 0 still takes the success
branch, because send_to_zabbix distinguishes failure by the delivery time
being None rather than by truthiness: the metrics for some 0 are the
success pair, and a full cycle whose clamped latency is 0 reports
success=1 with time 0. -/
theorem C10_zero_latency_success :
    sendToZabbixMetrics true "mailhost" (some 0) =
      [("mailhost", "email.delivery.time", 0),
        ("mailhost", "email.delivery.success", 1)] ∧
    runTest true "mailhost" ⟨some "tok", 202, none, 0⟩ "t1" none 0 300
        [⟨10, Except.ok [⟨[("X-EmailMonitor", "true"),
          ("X-EmailTestId", "t1"), ("X-EmailSendEpoch", "2000")],
          1500000⟩], 10⟩] =
      [("mailhost", "email.delivery.time", 0),
        ("mailhost", "email.delivery.success", 1)] := by
  constructor
  · simp [sendToZabbixMetrics]
  · have hsend : sendTestEmail ⟨some "tok", 202, none, 0⟩ = ⟨true, 1, 0⟩ := by
      decide
    have hmatch : findMatch "t1" [⟨[("X-EmailMonitor", "true"),
        ("X-EmailTestId", "t1"), ("X-EmailSendEpoch", "2000")], 1500000⟩] =
        some ⟨[("X-EmailMonitor", "true"), ("X-EmailTestId", "t1"),
          ("X-EmailSendEpoch", "2000")], 1500000⟩ := by decide
    have hlat : computeDeliveryTime none 10 0
        ⟨[("X-EmailMonitor", "true"), ("X-EmailTestId", "t1"),
          ("X-EmailSendEpoch", "2000")], 1500000⟩ = 0 := by
      rw [computeDeliveryTime_of_base none 10 0 _ 2000 (by decide)
        (by norm_num)]
      exact max_eq_left (by norm_num)
    simp only [runTest, hsend, Bool.not_true, Bool.false_eq_true, if_false,
      checkForEmailLoop]
    rw [if_pos (by norm_num : (10 : ℚ) - 0 < 300)]
    simp only [hmatch, hlat, sendToZabbixMetrics]
    simp

/-- C3: credential cache behaviour of _get_office365_token.  With
force=false and a truthy cached token, while now < expires_at - 300 the
cached token is returned unchanged with no fetch; a forced call performs
the exchange and, at an integral clock reading, stores
expires_at = now + expires_in, defaulting expires_in to 3600 when the
response omits it; two consecutive calls inside the validity window both
return the cached token; a call at expires_at - 299 fetches a new token,
and the immediately following call is served from the cache, so exactly
one fetch happens. -/
theorem C3_token_cache (st : TokenState) (now : ℚ) (acq : AcquireResult) :
    (pyTruthyStr st.access_token = true → now < st.token_expires_at - 300 →
      getOffice365Token st false now acq =
        { token := st.access_token, state := st, fetched := false }) ∧
    (∀ tok : String, acq.access_token = some tok → (⌊now⌋ : ℚ) = now →
      getOffice365Token st true now acq =
        { token := some tok
          state :=
            { access_token := some tok
              token_expires_at := now + (acq.expires_in.getD 3600 : ℤ) }
          fetched := true }) ∧
    (∀ tok : String, acq.access_token = some tok → acq.expires_in = none →
      (⌊now⌋ : ℚ) = now →
      getOffice365Token st true now acq =
        { token := some tok
          state :=
            { access_token := some tok
              token_expires_at := now + (3600 : ℚ) }
          fetched := true }) ∧
    (pyTruthyStr st.access_token = true → now < st.token_expires_at - 300 →
      (getOffice365Token st false now acq).token = st.access_token ∧
      (getOffice365Token (getOffice365Token st false now acq).state false now
        acq).token = st.access_token ∧
      (getOffice365Token st false now acq).fetched = false) ∧
    (∀ tok : String, acq.access_token = some tok → tok ≠ "" →
      300 < acq.expires_in.getD 3600 → now = st.token_expires_at - 299 →
      (⌊now⌋ : ℚ) = now →
      (getOffice365Token st false now acq).fetched = true ∧
      (getOffice365Token (getOffice365Token st false now acq).state false now
        acq).fetched = false ∧
      (getOffice365Token (getOffice365Token st false now acq).state false now
        acq).token = some tok) := by
  refine ⟨?_, ?_, ?_, ?_, ?_⟩
  · exact getOffice365Token_cached st now acq
  · intro tok ha hfloor
    rw [getOffice365Token_fresh st true now acq tok (by simp) ha, hfloor]
  · intro tok ha hnone hfloor
    rw [getOffice365Token_fresh st true now acq tok (by simp) ha, hfloor, hnone]
    norm_num
  · intro h1 h2
    rw [getOffice365Token_cached st now acq h1 h2]
    exact ⟨rfl, by rw [getOffice365Token_cached st now acq h1 h2], rfl⟩
  · intro tok ha htok hei hnow hfloor
    have hstale : (!false && pyTruthyStr st.access_token
        && decide (now < st.token_expires_at - 300)) = false := by
      have : ¬ now < st.token_expires_at - 300 := by rw [hnow]; linarith
      simp [this]
    have h1 := getOffice365Token_fresh st false now acq tok hstale ha
    have hei' : (300 : ℚ) < ((acq.expires_in.getD 3600 : ℤ) : ℚ) := by
      exact_mod_cast hei
    refine ⟨by rw [h1], ?_, ?_⟩ <;>
    · rw [h1]
      rw [getOffice365Token_cached _ now acq
        (by simp [pyTruthyStr, htok])
        (by simp only [hfloor]; linarith)]

/-- Witness for C3: a cache hit well inside the validity window returns
the cached token unchanged without fetching. -/
theorem C3_token_cache_witness :
    getOffice365Token ⟨some "tok", 1000⟩ false 500 ⟨some "new", none⟩ =
      { token := some "tok", state := ⟨some "tok", 1000⟩,
        fetched := false } :=
  (C3_token_cache ⟨some "tok", 1000⟩ 500 ⟨some "new", none⟩).1 (by decide)
    (by norm_num)

/-- C4 counterexample: the first response is 401 but the forced refresh
fails to yield a token; the code then performs no retried send (one send
attempt in total, not two), while the claim asserts that a 401 first
response always leads to exactly one retried send. -/
theorem C4_counterexample :
    sendTestEmail ⟨some "tok", 401, none, 0⟩ =
      { ok := false, sendAttempts := 1, forcedRefreshes := 1 } ∧
    (1 : Nat) ≠ 2 := by
  exact ⟨by decide, by decide⟩

/-- C4 (amended): on a 401 first response the adapter forces exactly one
token refresh; when the refresh yields a token the send is retried
exactly once and the cycle succeeds exactly when the retry returns 202;
when the refresh fails the cycle fails with no retried send.  Any other
non-success first status is terminal with one send and no forced refresh,
and every successful path performs at most one forced refresh and at most
two sends. -/
theorem C4_send_retry (env : SendEnv) :
    (pyTruthyStr env.token1 = true → env.status1 = 401 →
      (sendTestEmail env).forcedRefreshes = 1) ∧
    (pyTruthyStr env.token1 = true → env.status1 = 401 →
      pyTruthyStr env.token2 = true →
      (sendTestEmail env).sendAttempts = 2 ∧
      ((sendTestEmail env).ok = true ↔ env.status2 = 202)) ∧
    (pyTruthyStr env.token1 = true → env.status1 = 401 →
      pyTruthyStr env.token2 = false →
      sendTestEmail env = ⟨false, 1, 1⟩) ∧
    (pyTruthyStr env.token1 = true → env.status1 ≠ 202 → env.status1 ≠ 401 →
      sendTestEmail env = ⟨false, 1, 0⟩) ∧
    ((sendTestEmail env).ok = true → (sendTestEmail env).forcedRefreshes ≤ 1 ∧
      (sendTestEmail env).sendAttempts ≤ 2) := by
  obtain ⟨t1, s1, t2, s2⟩ := env
  refine ⟨?_, ?_, ?_, ?_, ?_⟩
  · intro h1 hs
    subst hs
    cases ht2 : pyTruthyStr t2 with
    | false => simp [sendTestEmail, h1, ht2]
    | true =>
      cases hs2 : s2 == 202 with
      | false => simp [sendTestEmail, h1, ht2, hs2]
      | true => simp [sendTestEmail, h1, ht2, hs2]
  · intro h1 hs ht2
    subst hs
    cases hs2 : s2 == 202 with
    | false =>
      constructor
      · simp [sendTestEmail, h1, ht2, hs2]
      · simp only [sendTestEmail, h1, ht2, hs2]
        simpa using (beq_eq_false_iff_ne.mp hs2)
    | true =>
      constructor
      · simp [sendTestEmail, h1, ht2, hs2]
      · simp only [sendTestEmail, h1, ht2, hs2]
        simpa using (beq_iff_eq.mp hs2)
  · intro h1 hs ht2
    subst hs
    simp [sendTestEmail, h1, ht2]
  · intro h1 hs202 hs401
    simp [sendTestEmail, h1, beq_eq_false_iff_ne.mpr hs202,
      beq_eq_false_iff_ne.mpr hs401]
  · intro hok
    cases h1 : pyTruthyStr t1 <;>
      cases hs2 : s1 == 202 <;>
        cases hs4 : s1 == 401 <;>
          cases ht2 : pyTruthyStr t2 <;>
            cases hs5 : s2 == 202 <;>
              simp [sendTestEmail, h1, hs2, hs4, ht2, hs5] at hok ⊢

/-- Witness for C4 (amended): first send returns 401, the forced refresh
yields a token, the retried send returns 202; two sends happen in total
and exactly one forced refresh. -/
theorem C4_send_retry_witness :
    (sendTestEmail ⟨some "tok", 401, some "tok2", 202⟩).sendAttempts = 2 :=
  ((C4_send_retry ⟨some "tok", 401, some "tok2", 202⟩).2.1 (by decide) rfl
    (by decide)).1

/-- C7: with the deadline parameters fixed at call time (default 300
seconds), a trace in which no candidate ever matches makes the poll loop
return None (timeout); an iteration that starts at or past the deadline
returns None immediately whatever follows; and a recoverable API error
inside the deadline contributes a constant 5-second sleep and a retry of
the same loop with the same start and max_wait. -/
theorem C7_poll_timeout (test_id : String) (lastSendEpoch : Option ℚ)
    (start maxWait : ℚ) :
    (∀ trace : List PollIteration,
      (∀ it ∈ trace, ∀ msgs : List CandidateMessage,
        it.fetch = Except.ok msgs → ∀ c ∈ msgs,
        matchCandidate test_id c = false) →
      (checkForEmailLoop test_id lastSendEpoch start maxWait trace).1 =
        none) ∧
    (∀ (it : PollIteration) (rest : List PollIteration),
      maxWait ≤ it.now - start →
      checkForEmailLoop test_id lastSendEpoch start maxWait (it :: rest) =
        (none, [])) ∧
    (∀ (it : PollIteration) (rest : List PollIteration),
      it.now - start < maxWait → it.fetch = Except.error () →
      checkForEmailLoop test_id lastSendEpoch start maxWait (it :: rest) =
        ((checkForEmailLoop test_id lastSendEpoch start maxWait rest).1,
          5 :: (checkForEmailLoop test_id lastSendEpoch start maxWait
            rest).2)) ∧
    checkForEmailDefaultWait = 300 := by
  refine ⟨?_, ?_, ?_, rfl⟩
  · intro trace h
    induction trace with
    | nil => rfl
    | cons it rest ih =>
      have ihr : (checkForEmailLoop test_id lastSendEpoch start maxWait
          rest).1 = none :=
        ih fun it2 h2 msgs hm c hc =>
          h it2 (List.mem_cons_of_mem _ h2) msgs hm c hc
      rw [checkForEmailLoop]
      by_cases hlt : it.now - start < maxWait
      · rw [if_pos hlt]
        cases hfetch : it.fetch with
        | error e => simpa using ihr
        | ok msgs =>
          have hnone : findMatch test_id msgs = none := by
            refine List.find?_eq_none.mpr fun c hc => ?_
            simp [h it (List.mem_cons_self _ _) msgs hfetch c hc]
          simp only [hnone]
          simpa using ihr
      · rw [if_neg hlt]
  · intro it rest h
    rw [checkForEmailLoop, if_neg (not_lt.mpr h)]
  · intro it rest hlt herr
    rw [checkForEmailLoop, if_pos hlt, herr]

/-- Witness for C7: a single matchless iteration inside the deadline ends
in a timeout result. -/
theorem C7_poll_timeout_witness :
    (checkForEmailLoop "t1" none 0 300 [⟨10, Except.ok [], 10⟩]).1 = none :=
  (C7_poll_timeout "t1" none 0 300).1 _ (by
    intro it hit msgs hm c hc
    simp only [List.mem_singleton] at hit
    subst hit
    simp only at hm
    injection hm with h
    subst h
    exact absurd hc (List.not_mem_nil c))

/-- C8: two candidates that agree on the receive timestamp and on every
header lookup except Message-ID and X-Monitor-Message-Id receive the same
match decision and the same latency: the message-identifier headers feed
only diagnostic logging. -/
theorem C8_message_id_independence (test_id : String)
    (lastSendEpoch : Option ℚ) (now start : ℚ) (c1 c2 : CandidateMessage)
    (hdate : c1.internalDate = c2.internalDate)
    (hhdr : ∀ k : String, k ≠ "message-id" → k ≠ "x-monitor-message-id" →
      headerLookup c1 k = headerLookup c2 k) :
    matchCandidate test_id c1 = matchCandidate test_id c2 ∧
    computeDeliveryTime lastSendEpoch now start c1 =
      computeDeliveryTime lastSendEpoch now start c2 := by
  have h1 := hhdr "x-emailmonitor" (by decide) (by decide)
  have h2 := hhdr "x-emailtestid" (by decide) (by decide)
  have h3 := hhdr "x-emailsendepoch" (by decide) (by decide)
  have hse : headerSendEpoch c1 = headerSendEpoch c2 := by
    simp only [headerSendEpoch, h3]
  refine ⟨?_, ?_⟩
  · simp only [matchCandidate, h1, h2]
  · simp only [computeDeliveryTime, baseSend, hse, hdate]

/-- Witness for C8: adding Message-ID and X-Monitor-Message-Id headers to
a matched candidate changes neither the decision nor the latency. -/
theorem C8_message_id_independence_witness :
    matchCandidate "t1"
        ⟨[("X-EmailMonitor", "true"), ("X-EmailTestId", "t1")], 5000⟩ =
      matchCandidate "t1"
        ⟨[("X-EmailMonitor", "true"), ("X-EmailTestId", "t1"),
          ("Message-ID", "<a@b>"), ("X-Monitor-Message-Id", "<c@d>")],
          5000⟩ ∧
    computeDeliveryTime none 3 1
        ⟨[("X-EmailMonitor", "true"), ("X-EmailTestId", "t1")], 5000⟩ =
      computeDeliveryTime none 3 1
        ⟨[("X-EmailMonitor", "true"), ("X-EmailTestId", "t1"),
          ("Message-ID", "<a@b>"), ("X-Monitor-Message-Id", "<c@d>")],
          5000⟩ := by
  refine C8_message_id_independence "t1" none 3 1
    ⟨[("X-EmailMonitor", "true"), ("X-EmailTestId", "t1")], 5000⟩
    ⟨[("X-EmailMonitor", "true"), ("X-EmailTestId", "t1"),
      ("Message-ID", "<a@b>"), ("X-Monitor-Message-Id", "<c@d>")], 5000⟩
    rfl ?_
  intro k hk1 hk2
  show dictGet [("X-EmailMonitor", "true"), ("X-EmailTestId", "t1")] k =
    dictGet (([("X-EmailMonitor", "true"), ("X-EmailTestId", "t1")] ++
      [("Message-ID", "<a@b>")]) ++ [("X-Monitor-Message-Id", "<c@d>")]) k
  rw [dictGet_append_skip _ _ _ _ (by
      rw [show strLower "X-Monitor-Message-Id" = "x-monitor-message-id"
        from rfl]
      exact Ne.symm hk2),
    dictGet_append_skip _ _ _ _ (by
      rw [show strLower "Message-ID" = "message-id" from rfl]
      exact Ne.symm hk1)]

/-- C9: run_test always ends in a report: a failed send reports the
failure metrics, a timed-out poll reports the failure metrics, and every
cycle emits either the failure pair or a success pair — never an
exception. -/
theorem C9_cycle_always_reports (host : String) (env : SendEnv)
    (test_id : String) (lastSendEpoch : Option ℚ) (start maxWait : ℚ)
    (trace : List PollIteration) :
    ((sendTestEmail env).ok = false →
      runTest true host env test_id lastSendEpoch start maxWait trace =
        [(host, "email.delivery.success", 0),
          (host, "email.delivery.time", -1)]) ∧
    ((checkForEmailLoop test_id lastSendEpoch start maxWait trace).1 =
        none →
      runTest true host env test_id lastSendEpoch start maxWait trace =
        [(host, "email.delivery.success", 0),
          (host, "email.delivery.time", -1)]) ∧
    (runTest true host env test_id lastSendEpoch start maxWait trace =
        [(host, "email.delivery.success", 0),
          (host, "email.delivery.time", -1)] ∨
      ∃ t : ℚ,
        runTest true host env test_id lastSendEpoch start maxWait trace =
          [(host, "email.delivery.time", t),
            (host, "email.delivery.success", 1)]) := by
  refine ⟨?_, ?_, ?_⟩
  · intro h
    simp [runTest, h, sendToZabbixMetrics]
  · intro h
    cases hok : (sendTestEmail env).ok with
    | false => simp [runTest, hok, sendToZabbixMetrics]
    | true => simp [runTest, hok, h, sendToZabbixMetrics]
  · cases hok : (sendTestEmail env).ok with
    | false => exact Or.inl (by simp [runTest, hok, sendToZabbixMetrics])
    | true =>
      cases hr : (checkForEmailLoop test_id lastSendEpoch start maxWait
          trace).1 with
      | none => exact Or.inl (by simp [runTest, hok, hr, sendToZabbixMetrics])
      | some t =>
        exact Or.inr ⟨t, by simp [runTest, hok, hr, sendToZabbixMetrics]⟩

/-- Witness for C9: a cycle whose initial token lookup fails reports the
failure metrics. -/
theorem C9_cycle_always_reports_witness :
    runTest true "mailhost" ⟨none, 0, none, 0⟩ "t1" none 0 300 [] =
      [("mailhost", "email.delivery.success", 0),
        ("mailhost", "email.delivery.time", -1)] :=
  (C9_cycle_always_reports "mailhost" ⟨none, 0, none, 0⟩ "t1" none 0 300
    []).1 (by decide)

end EmailMonitor
